import Mathlib

/-!
# Verification of the GroceryListDB receipt command encoder

Shallow embedding of the printer-facing core of `GroceryListDB`
(`src/grocery_list_db.py`): the PDF417 barcode command builder
(`print_pdf417` with its inner helpers `validate_parameters`,
`calculate_pl_ph`, `prefix`, `prefix_short`) and the fixed-width line
formatter (`r_l_justify`), followed by theorems about them.

Modelling conventions:
* A Python `str` is a `List Char` (Python `len` is the character count).
* A Python `bytes`/`bytearray` is a `List Nat`, each element < 256.
* `content.encode("utf-8")` is `utf8Encode`, which produces the UTF-8
  bytes of each scalar value.
* The printer object `p` is modelled by an explicit output trace: a call
  to `p._raw(data)` appends `data` to the `sent` trace of a
  `PrintResult`; the Python return value is the `ret` field (`none`
  models Python `None`).
* `r_l_justify` reads its width from `printer_config["chr_width"]`
  (an `int(...)` of a config value); the embedding takes that integer
  as the explicit argument `chr_width`.  Its calls to `p.text` either
  emit the error marker text or the final justified line; the embedding
  returns `Except` distinguishing the two, with the payload being the
  exact text handed to `p.text`.
-/

set_option maxRecDepth 40000

set_option maxHeartbeats 1000000

namespace GroceryListDB

/-- Result of a call to `print_pdf417`: the Python return value
(`none` for Python `None`, `some msg` for an error string) together
with the trace of byte payloads passed to `p._raw`. -/
structure PrintResult where
  ret  : Option (List Char)
  sent : List (List Nat)
  deriving DecidableEq, Repr

instance {α β : Type} [DecidableEq α] [DecidableEq β] :
    DecidableEq (Except α β) := fun x y =>
  match x, y with
  | .error a, .error b =>
      if h : a = b then .isTrue (h ▸ rfl)
      else .isFalse (fun hc => h (Except.error.inj hc))
  | .ok a, .ok b =>
      if h : a = b then .isTrue (h ▸ rfl)
      else .isFalse (fun hc => h (Except.ok.inj hc))
  | .error _, .ok _ => .isFalse (fun hc => Except.noConfusion hc)
  | .ok _, .error _ => .isFalse (fun hc => Except.noConfusion hc)

/-- UTF-8 encoding of one Unicode scalar value, as Python
`chr.encode("utf-8")` produces it. -/
def utf8EncodeChar (c : Char) : List Nat :=
  let n := c.toNat
  if n < 0x80 then [n]
  else if n < 0x800 then
    [0xC0 + n / 64, 0x80 + n % 64]
  else if n < 0x10000 then
    [0xE0 + n / 4096, 0x80 + n / 64 % 64, 0x80 + n % 64]
  else
    [0xF0 + n / 262144, 0x80 + n / 4096 % 64, 0x80 + n / 64 % 64, 0x80 + n % 64]

/-- Python `s.encode("utf-8")` for a string `s`. -/
def utf8Encode (s : List Char) : List Nat :=
  (s.map utf8EncodeChar).flatten

/-! ## Error message constants of `print_pdf417` and `r_l_justify`
(the exact strings returned by `src/grocery_list_db.py`). -/

def errTooLarge : List Char := "TOO LARGE".data

def errWidth : List Char := "Width must be between 2 and 8".data

def errRows : List Char := "Rows must be 0 (auto) or between 3 and 90".data

def errHeight : List Char := "Height multiplier must be between 0 and 16".data

def errColumns : List Char := "Data column count must be between 0 and 30".data

def errEc : List Char := "Error correction level must be between 1 and 40".data

def errOptions : List Char := "Options must be 0 (standard) or 1 (truncated)".data

def errSpaceChr : List Char := "SPACE_CHR must be a single character".data

/-! ## The barcode command builder -/

/-- Inner helper `prefix()` of `print_pdf417`: the 6-byte command prefix
`1D 28 6B 03 00 30` (named `prefixLong` because `prefix` is reserved in
Lean). -/
def prefixLong : List Nat := [0x1d, 0x28, 0x6b, 0x03, 0x00, 0x30]

/-- Inner helper `prefix_short()` of `print_pdf417`: the 3-byte prefix
`1D 28 6B`. -/
def prefix_short : List Nat := [0x1d, 0x28, 0x6b]

/-- Inner helper `calculate_pl_ph(measure)` of `print_pdf417`:
`total_length = len(measure) + 3`, `pl = total_length % 256`,
`ph = total_length // 256`, then the no-op branch
`if not ph: ph = 0`. -/
def calculate_pl_ph (measure : List Nat) : Nat × Nat :=
  let total_length := measure.length + 3
  let pl := total_length % 256
  let ph := total_length / 256
  let ph := if ph = 0 then 0 else ph
  (pl, ph)

/-- Python `n.to_bytes()` (length 1, big endian) for a parameter that
validation has already confined to `0 ≤ n < 256`; on that range it is
the single byte `n`. -/
def to_bytes1 (n : Int) : List Nat := [n.toNat]

/-- Inner helper `validate_parameters()` of `print_pdf417`
(`src/grocery_list_db.py`): the ordered fail-fast chain of range
checks, each returning its own message.  Note that the size check runs
on `len(content)` of the *string* — the character count — because
`content.encode("utf-8")` only happens after validation succeeds. -/
def validate_parameters (content : List Char)
    (width rows height_multiplier data_column_count ec options : Int) :
    Option (List Char) :=
  if 500 ≤ content.length + 3 then some errTooLarge
  else if ¬(2 ≤ width ∧ width ≤ 8) then some errWidth
  else if rows ≠ 0 ∧ ¬(3 ≤ rows ∧ rows ≤ 90) then some errRows
  else if ¬(0 ≤ height_multiplier ∧ height_multiplier ≤ 16) then some errHeight
  else if ¬(0 ≤ data_column_count ∧ data_column_count ≤ 30) then some errColumns
  else if ¬(1 ≤ ec ∧ ec ≤ 40) then some errEc
  else if ¬(options = 0 ∨ options = 1) then some errOptions
  else none

/-- `print_pdf417(content, width=2, rows=0, height_multiplier=0,
data_column_count=0, ec=20, options=0)` from
`src/grocery_list_db.py`: validate, then build the command sequence in
a `bytearray` by successive `extend` calls, and finally send it with
`p._raw(data)` and return `None`.  On a validation error the error
string is returned and nothing is sent. -/
def print_pdf417 (content : List Char) (width : Int := 2) (rows : Int := 0)
    (height_multiplier : Int := 0) (data_column_count : Int := 0)
    (ec : Int := 20) (options : Int := 0) : PrintResult :=
  match validate_parameters content width rows height_multiplier
      data_column_count ec options with
  | some error => { ret := some error, sent := [] }
  | none =>
    let content := utf8Encode content
    let data := [0x1b, 0x61, 0x01]
    let data := data ++ prefixLong ++ to_bytes1 70 ++ to_bytes1 options
    let data := data ++ prefixLong ++ to_bytes1 65 ++ to_bytes1 data_column_count
    let data := data ++ prefixLong ++ to_bytes1 66 ++ to_bytes1 rows
    let data := data ++ prefixLong ++ to_bytes1 67 ++ to_bytes1 width
    let data := data ++ prefixLong ++ to_bytes1 68 ++ to_bytes1 height_multiplier
    let data := data ++ prefix_short ++ [0x04, 0x00, 0x30] ++ to_bytes1 69
      ++ to_bytes1 49 ++ to_bytes1 ec
    let plph := calculate_pl_ph content
    let data := data ++ prefix_short ++ [plph.1, plph.2] ++ [0x30, 0x50, 0x30]
      ++ content
    let data := data ++ prefixLong ++ to_bytes1 81 ++ [0x30]
    { ret := none, sent := [data] }

/-! ## The line formatter -/

/-- Python `s[:k]` for an `int` stop `k`: a nonnegative stop keeps the
first `k` characters (clamped to the length); a negative stop keeps
`len(s) + k` characters (clamped below at zero). -/
def pySliceTo (s : List Char) (k : Int) : List Char :=
  if 0 ≤ k then s.take k.toNat
  else s.take ((s.length : Int) + k).toNat

/-- Python `s * n` for an `int` count `n` (empty when `n ≤ 0`). -/
def pyRepeat (s : List Char) (n : Int) : List Char :=
  (List.replicate n.toNat s).flatten

/-- `r_l_justify(str_a, str_b, space_chr=" ")` from
`src/grocery_list_db.py`, with `int(printer_config["chr_width"])`
passed in as `chr_width`.  `.error` is the validation marker text the
source hands to `p.text` before returning early, `.ok` is the final
justified line it hands to `p.text`. -/
def r_l_justify (str_a str_b : List Char) (space_chr : List Char := [' '])
    (chr_width : Int := 48) : Except (List Char) (List Char) :=
  if space_chr = [] ∨ space_chr.length ≠ 1 then .error errSpaceChr
  else
    let both_length := str_a.length + str_b.length
    let str_a :=
      if chr_width < (both_length : Int) then
        let amt_to_trim := chr_width - ((str_b.length : Int) + 5)
        pySliceTo str_a amt_to_trim ++ "...".data
      else str_a
    let both_length := str_a.length + str_b.length
    let spaces := pyRepeat space_chr (chr_width - (both_length : Int))
    .ok (str_a ++ spaces ++ str_b)

/-! ## Validity predicate and normal form of `print_pdf417` -/

/-- The conjunction of all parameter conditions that
`validate_parameters` checks (in the source the size condition is on
the character count of `content`). -/
@[reducible] def ValidRequest (content : List Char)
    (width rows height_multiplier data_column_count ec options : Int) : Prop :=
  content.length + 3 < 500 ∧
  (2 ≤ width ∧ width ≤ 8) ∧
  (rows = 0 ∨ (3 ≤ rows ∧ rows ≤ 90)) ∧
  (0 ≤ height_multiplier ∧ height_multiplier ≤ 16) ∧
  (0 ≤ data_column_count ∧ data_column_count ≤ 30) ∧
  (1 ≤ ec ∧ ec ≤ 40) ∧
  (options = 0 ∨ options = 1)

theorem validate_parameters_eq_none_iff (content : List Char)
    (width rows height_multiplier data_column_count ec options : Int) :
    validate_parameters content width rows height_multiplier
      data_column_count ec options = none ↔
    ValidRequest content width rows height_multiplier
      data_column_count ec options := by
  unfold validate_parameters ValidRequest
  split_ifs with h1 h2 h3 h4 h5 h6 h7 <;>
    simp only [reduceCtorEq, false_iff, true_iff] <;> omega

theorem print_pdf417_of_valid (content : List Char)
    (width rows height_multiplier data_column_count ec options : Int)
    (h : ValidRequest content width rows height_multiplier
      data_column_count ec options) :
    print_pdf417 content width rows height_multiplier
      data_column_count ec options =
    { ret := none,
      sent := [[0x1b, 0x61, 0x01,
        0x1d, 0x28, 0x6b, 0x03, 0x00, 0x30, 70, options.toNat,
        0x1d, 0x28, 0x6b, 0x03, 0x00, 0x30, 65, data_column_count.toNat,
        0x1d, 0x28, 0x6b, 0x03, 0x00, 0x30, 66, rows.toNat,
        0x1d, 0x28, 0x6b, 0x03, 0x00, 0x30, 67, width.toNat,
        0x1d, 0x28, 0x6b, 0x03, 0x00, 0x30, 68, height_multiplier.toNat,
        0x1d, 0x28, 0x6b, 0x04, 0x00, 0x30, 69, 49, ec.toNat,
        0x1d, 0x28, 0x6b,
        (calculate_pl_ph (utf8Encode content)).1,
        (calculate_pl_ph (utf8Encode content)).2,
        0x30, 0x50, 0x30] ++ utf8Encode content ++
        [0x1d, 0x28, 0x6b, 0x03, 0x00, 0x30, 81, 0x30]] } := by
  have hv := (validate_parameters_eq_none_iff content width rows
    height_multiplier data_column_count ec options).mpr h
  simp only [print_pdf417, hv, prefixLong, prefix_short, to_bytes1,
    List.cons_append, List.nil_append, List.append_assoc]
  norm_num
  decide

theorem length_pyRepeat (s : List Char) (n : Int) :
    (pyRepeat s n).length = n.toNat * s.length := by
  unfold pyRepeat
  simp [List.length_flatten, List.map_replicate, List.sum_replicate,
    Nat.smul_one_eq_cast]

/-! ## Claim theorems -/

/-- Claim C1: for every `BarcodeRequest` that passes all validation
checks, the byte sequence assembled by `print_pdf417` is exactly, in
order: the alignment escape `1B 61 01`; five one-parameter commands
(6-byte prefix `1D 28 6B 03 00 30`, function byte, parameter byte) with
function bytes 70 (options), 65 (data_column_count), 66 (rows),
67 (width), 68 (height_multiplier); the error-correction command
(short prefix `1D 28 6B`, literal `04 00 30`, function bytes 69 and 49,
EC byte); the data-storage command (short prefix, `(pL, pH)`, mode
bytes `30 50 30`, raw UTF-8 content bytes); and the print-symbol
command (6-byte prefix, function byte 81, trailing `30`).  In
particular the output begins with `1B 61 01`. -/
theorem print_pdf417_layout (content : List Char)
    (width rows height_multiplier data_column_count ec options : Int)
    (h : ValidRequest content width rows height_multiplier
      data_column_count ec options) :
    (print_pdf417 content width rows height_multiplier
        data_column_count ec options).sent =
      [[0x1b, 0x61, 0x01] ++
        ([0x1d, 0x28, 0x6b, 0x03, 0x00, 0x30] ++ [70] ++ [options.toNat]) ++
        ([0x1d, 0x28, 0x6b, 0x03, 0x00, 0x30] ++ [65] ++ [data_column_count.toNat]) ++
        ([0x1d, 0x28, 0x6b, 0x03, 0x00, 0x30] ++ [66] ++ [rows.toNat]) ++
        ([0x1d, 0x28, 0x6b, 0x03, 0x00, 0x30] ++ [67] ++ [width.toNat]) ++
        ([0x1d, 0x28, 0x6b, 0x03, 0x00, 0x30] ++ [68] ++ [height_multiplier.toNat]) ++
        ([0x1d, 0x28, 0x6b] ++ [0x04, 0x00, 0x30] ++ [69] ++ [49] ++ [ec.toNat]) ++
        ([0x1d, 0x28, 0x6b] ++
          [(calculate_pl_ph (utf8Encode content)).1,
           (calculate_pl_ph (utf8Encode content)).2] ++
          [0x30, 0x50, 0x30] ++ utf8Encode content) ++
        ([0x1d, 0x28, 0x6b, 0x03, 0x00, 0x30] ++ [81] ++ [0x30])] ∧
    ∀ out ∈ (print_pdf417 content width rows height_multiplier
        data_column_count ec options).sent,
      out.take 3 = [0x1b, 0x61, 0x01] := by
  rw [print_pdf417_of_valid _ _ _ _ _ _ _ h]
  constructor
  · simp only [List.append_assoc, List.cons_append, List.nil_append,
      List.singleton_append]
  · intro out hout
    simp only [List.mem_singleton] at hout
    subst hout
    rfl

/-- Witness for C1 at the request `content="x"`, all other parameters
at their source defaults. -/
theorem print_pdf417_layout_witness :
    ValidRequest "x".data 2 0 0 0 20 0 ∧
    (print_pdf417 "x".data 2 0 0 0 20 0).sent =
      [[0x1b, 0x61, 0x01,
        0x1d, 0x28, 0x6b, 0x03, 0x00, 0x30, 70, 0,
        0x1d, 0x28, 0x6b, 0x03, 0x00, 0x30, 65, 0,
        0x1d, 0x28, 0x6b, 0x03, 0x00, 0x30, 66, 0,
        0x1d, 0x28, 0x6b, 0x03, 0x00, 0x30, 67, 2,
        0x1d, 0x28, 0x6b, 0x03, 0x00, 0x30, 68, 0,
        0x1d, 0x28, 0x6b, 0x04, 0x00, 0x30, 69, 49, 20,
        0x1d, 0x28, 0x6b, 4, 0, 0x30, 0x50, 0x30, 0x78,
        0x1d, 0x28, 0x6b, 0x03, 0x00, 0x30, 81, 0x30]] :=
  ⟨by decide,
    ((print_pdf417_layout "x".data 2 0 0 0 20 0 (by decide)).1).trans
      (by decide)⟩

/-- Claim C2: for every content whose UTF-8 encoding has byte-length
`L`, the `(pL, pH)` pair of `calculate_pl_ph` satisfies
`pL + 256*pH = L + 3`, `0 ≤ pL ≤ 255`, `pH ≥ 0`, and `pH` equals the
plain floor division `(L + 3) / 256` — the `if not ph: ph = 0` branch
of the source is a no-op. -/
theorem calculate_pl_ph_correct (measure : List Nat) :
    (calculate_pl_ph measure).1 + 256 * (calculate_pl_ph measure).2
        = measure.length + 3 ∧
    (calculate_pl_ph measure).1 ≤ 255 ∧
    0 ≤ (calculate_pl_ph measure).2 ∧
    (calculate_pl_ph measure).2 = (measure.length + 3) / 256 := by
  simp only [calculate_pl_ph]
  split_ifs with h <;> refine ⟨?_, ?_, ?_, ?_⟩ <;> omega

/-- Claim C10: for every request that passes validation, the assembled
byte sequence has length exactly `L + 68` where `L` is the byte-length
of the UTF-8-encoded content. -/
theorem print_pdf417_output_length (content : List Char)
    (width rows height_multiplier data_column_count ec options : Int)
    (h : ValidRequest content width rows height_multiplier
      data_column_count ec options) :
    (print_pdf417 content width rows height_multiplier
        data_column_count ec options).sent.map List.length =
      [(utf8Encode content).length + 68] := by
  rw [print_pdf417_of_valid _ _ _ _ _ _ _ h]
  simp only [List.map_cons, List.map_nil, List.length_append,
    List.length_cons, List.length_nil, List.cons.injEq, and_true]
  omega

/-- Witness for C10 at the request `content="x"`, all other parameters
at their source defaults. -/
theorem print_pdf417_output_length_witness :
    ValidRequest "x".data 2 0 0 0 20 0 ∧
    (print_pdf417 "x".data 2 0 0 0 20 0).sent.map List.length =
      [(utf8Encode "x".data).length + 68] :=
  ⟨by decide, print_pdf417_output_length "x".data 2 0 0 0 20 0 (by decide)⟩

/-- Claim C3 (counterexample): the size check does *not* run on the
UTF-8 byte length.  For 250 copies of the two-byte character `é` the
encoded byte-length is 500, so `L + 3 ≥ 500` and the claim demands the
`ContentTooLarge` error with no bytes emitted — but the source checks
`len(content)` on the *string* (250 characters) before encoding, so
the call succeeds and bytes are sent. -/
theorem size_check_bytes_counterexample :
    500 ≤ (utf8Encode (List.replicate 250 'é')).length + 3 ∧
    (print_pdf417 (List.replicate 250 'é') 2 0 0 0 20 0).ret = none ∧
    (print_pdf417 (List.replicate 250 'é') 2 0 0 0 20 0).sent ≠ [] := by
  refine ⟨by decide, ?_, ?_⟩
  · rw [print_pdf417_of_valid _ _ _ _ _ _ _ (by decide)]
  · rw [print_pdf417_of_valid _ _ _ _ _ _ _ (by decide)]
    simp

/-- Claim C3 (amended): the content-size check operates on the
*character count* of the content (the source tests
`len(content) + 3 >= 500` before encoding): whenever the character
count plus 3 reaches 500 the call returns `TOO LARGE` and emits no
bytes, and whenever it is below 500 the size check passes — the call
never returns `TOO LARGE`, whatever the UTF-8 byte length is. -/
theorem size_check_uses_char_count :
    (∀ (content : List Char) (w r hm dcc ec o : Int),
      500 ≤ content.length + 3 →
      print_pdf417 content w r hm dcc ec o =
        { ret := some errTooLarge, sent := [] }) ∧
    (∀ (content : List Char) (w r hm dcc ec o : Int),
      content.length + 3 < 500 →
      (print_pdf417 content w r hm dcc ec o).ret ≠ some errTooLarge) := by
  constructor
  · intro c w r hm dcc ec o hbig
    simp only [print_pdf417, validate_parameters, if_pos hbig]
  · intro c w r hm dcc ec o hsmall
    simp only [print_pdf417, validate_parameters,
      if_neg (by omega : ¬ 500 ≤ c.length + 3)]
    split_ifs <;> (simp only [ne_eq, Option.some.injEq]; try decide)

/-- Witness for the amended C3: a 500-character content is rejected
with `TOO LARGE`; a 1-character content never yields `TOO LARGE`. -/
theorem size_check_uses_char_count_witness :
    (500 ≤ (List.replicate 500 'a').length + 3 ∧
      print_pdf417 (List.replicate 500 'a') 2 0 0 0 20 0 =
        { ret := some errTooLarge, sent := [] }) ∧
    ("x".data.length + 3 < 500 ∧
      (print_pdf417 "x".data 2 0 0 0 20 0).ret ≠ some errTooLarge) :=
  ⟨⟨by decide, size_check_uses_char_count.1 _ 2 0 0 0 20 0 (by decide)⟩,
   ⟨by decide, size_check_uses_char_count.2 _ 2 0 0 0 20 0 (by decide)⟩⟩

/-- Claim C4: whenever at least one parameter is out of range,
`print_pdf417` returns a descriptive error value and sends no bytes at
all; validation is fail-fast in the order content size, width, rows,
height_multiplier, data_column_count, error_correction_level, options,
and the seven error messages are pairwise distinct. -/
theorem print_pdf417_fail_fast :
    List.Pairwise (· ≠ ·)
      [errTooLarge, errWidth, errRows, errHeight, errColumns, errEc,
        errOptions] ∧
    ∀ (content : List Char) (w r hm dcc ec o : Int),
      ¬ ValidRequest content w r hm dcc ec o →
      print_pdf417 content w r hm dcc ec o =
        { ret := some
            (if 500 ≤ content.length + 3 then errTooLarge
             else if ¬(2 ≤ w ∧ w ≤ 8) then errWidth
             else if r ≠ 0 ∧ ¬(3 ≤ r ∧ r ≤ 90) then errRows
             else if ¬(0 ≤ hm ∧ hm ≤ 16) then errHeight
             else if ¬(0 ≤ dcc ∧ dcc ≤ 30) then errColumns
             else if ¬(1 ≤ ec ∧ ec ≤ 40) then errEc
             else errOptions),
          sent := [] } := by
  refine ⟨by decide, ?_⟩
  intro c w r hm dcc ec o hnv
  simp only [print_pdf417, validate_parameters]
  split_ifs <;> first | rfl | (exfalso; exact hnv (by omega))

/-- Witness for C4 at `width = 9` (all other parameters valid). -/
theorem print_pdf417_fail_fast_witness :
    ¬ ValidRequest "x".data 9 0 0 0 20 0 ∧
    print_pdf417 "x".data 9 0 0 0 20 0 =
      { ret := some errWidth, sent := [] } :=
  ⟨by decide,
    (print_pdf417_fail_fast.2 "x".data 9 0 0 0 20 0 (by decide)).trans
      (by decide)⟩

/-- Claim C5: all boundary parameter values are accepted — any request
with `width ∈ {2,8}`, `rows ∈ {0,3,90}`, `height_multiplier ∈ {0,16}`,
`data_column_count ∈ {0,30}`, `error_correction_level ∈ {1,40}`,
`options ∈ {0,1}` and content within the size limit succeeds — while
each value one unit outside a bound fails with the error of that
parameter. -/
theorem print_pdf417_boundaries :
    (∀ (content : List Char), content.length + 3 < 500 →
      ∀ w r hm dcc ec o : Int,
        (w = 2 ∨ w = 8) → (r = 0 ∨ r = 3 ∨ r = 90) →
        (hm = 0 ∨ hm = 16) → (dcc = 0 ∨ dcc = 30) →
        (ec = 1 ∨ ec = 40) → (o = 0 ∨ o = 1) →
        (print_pdf417 content w r hm dcc ec o).ret = none) ∧
    (print_pdf417 "x".data 1 0 0 0 20 0).ret = some errWidth ∧
    (print_pdf417 "x".data 9 0 0 0 20 0).ret = some errWidth ∧
    (print_pdf417 "x".data 2 2 0 0 20 0).ret = some errRows ∧
    (print_pdf417 "x".data 2 91 0 0 20 0).ret = some errRows ∧
    (print_pdf417 "x".data 2 0 17 0 20 0).ret = some errHeight ∧
    (print_pdf417 "x".data 2 0 0 31 20 0).ret = some errColumns ∧
    (print_pdf417 "x".data 2 0 0 0 0 0).ret = some errEc ∧
    (print_pdf417 "x".data 2 0 0 0 41 0).ret = some errEc ∧
    (print_pdf417 "x".data 2 0 0 0 20 2).ret = some errOptions := by
  refine ⟨?_, by decide, by decide, by decide, by decide, by decide,
    by decide, by decide, by decide, by decide⟩
  intro c hc w r hm dcc ec o hw hr hhm hdcc hec ho
  rw [print_pdf417_of_valid _ _ _ _ _ _ _
    ⟨hc, by omega, by omega, by omega, by omega, by omega, by omega⟩]

/-- Witness for C5 at the lower boundary of every parameter. -/
theorem print_pdf417_boundaries_witness :
    "x".data.length + 3 < 500 ∧
    (print_pdf417 "x".data 2 0 0 0 1 0).ret = none :=
  ⟨by decide,
    print_pdf417_boundaries.1 "x".data (by decide) 2 0 0 0 1 0
      (Or.inl rfl) (Or.inl rfl) (Or.inl rfl) (Or.inl rfl) (Or.inl rfl)
      (Or.inl rfl)⟩

/-- Claim C6 (counterexample): at a concrete valid request the builder
does not hand the byte buffer back to the caller — the Python return
value is `None` — and its device trace is nonempty: `print_pdf417`
itself calls `p._raw(data)`, so transmission is performed by the
encoder, not left to the caller. -/
theorem print_pdf417_sends_counterexample :
    (print_pdf417 "x".data 2 0 0 0 20 0).ret = none ∧
    (print_pdf417 "x".data 2 0 0 0 20 0).sent ≠ [] := by decide

/-- Claim C6 (amended): for every valid request, `print_pdf417` itself
transmits the assembled buffer to the device in exactly one `p._raw`
call and returns `None` rather than returning the buffer. -/
theorem print_pdf417_transmits_itself (content : List Char)
    (width rows height_multiplier data_column_count ec options : Int)
    (h : ValidRequest content width rows height_multiplier
      data_column_count ec options) :
    (print_pdf417 content width rows height_multiplier
        data_column_count ec options).ret = none ∧
    (print_pdf417 content width rows height_multiplier
        data_column_count ec options).sent.length = 1 := by
  rw [print_pdf417_of_valid _ _ _ _ _ _ _ h]
  exact ⟨rfl, rfl⟩

/-- Witness for the amended C6 at `content="x"`, default parameters. -/
theorem print_pdf417_transmits_itself_witness :
    ValidRequest "x".data 2 0 0 0 20 0 ∧
    ((print_pdf417 "x".data 2 0 0 0 20 0).ret = none ∧
      (print_pdf417 "x".data 2 0 0 0 20 0).sent.length = 1) :=
  ⟨by decide, print_pdf417_transmits_itself "x".data 2 0 0 0 20 0 (by decide)⟩

/-- Claim C7: whenever `len(label) + len(value) ≤ width` and the pad
character is a single character, `r_l_justify` produces the label, then
the pad character repeated exactly `width - len(label) - len(value)`
times, then the value, and the line has length exactly `width`. -/
theorem r_l_justify_fits (a b sp : List Char) (w : Int)
    (hsp : sp.length = 1)
    (hfit : (a.length : Int) + b.length ≤ w) :
    r_l_justify a b sp w =
      .ok (a ++ pyRepeat sp (w - (a.length : Int) - b.length) ++ b) ∧
    (a ++ pyRepeat sp (w - (a.length : Int) - b.length) ++ b).length
      = w.toNat := by
  have hne : ¬(sp = [] ∨ sp.length ≠ 1) := by
    rintro (rfl | hl) <;> simp_all
  constructor
  · simp only [r_l_justify]
    rw [if_neg hne, if_neg (by push_cast; omega)]
    have harg : w - ((a.length + b.length : Nat) : Int)
        = w - (a.length : Int) - b.length := by push_cast; ring
    rw [harg]
  · simp only [List.length_append, length_pyRepeat, hsp]
    omega

/-- Witness for C7: `justify("Milk", "14", width=10)` produces
`"Milk    14"`, of length exactly 10. -/
theorem r_l_justify_fits_witness :
    ([' '] : List Char).length = 1 ∧
    ("Milk".data.length : Int) + "14".data.length ≤ 10 ∧
    r_l_justify "Milk".data "14".data [' '] 10 = .ok "Milk    14".data ∧
    "Milk    14".data.length = (10 : Int).toNat :=
  ⟨by decide, by decide,
    ((r_l_justify_fits "Milk".data "14".data [' '] 10 (by decide)
      (by decide)).1).trans (by decide),
    by decide⟩

/-- Claim C8 (code evaluation at the failing input): with
`chr_width = 10` and an 8-character value, `width - len(value) - 5`
is `-3 < 0`; instead of signalling a `ContentTooWideForWidth` error the
source slices the label with the negative stop (Python drops the last
3 characters) and emits a 17-character line that exceeds the width. -/
theorem r_l_justify_negative_slice :
    (10 : Int) - (("12345678".data.length : Int) + 5) < 0 ∧
    r_l_justify "Groceries".data "12345678".data [' '] 10 =
      .ok "Grocer...12345678".data ∧
    10 < ("Grocer...12345678".data).length := by decide

/-- Claim C9: `r_l_justify` fails with the single-character pad error
whenever `space_chr` is not exactly one character long. -/
theorem r_l_justify_invalid_pad (a b sp : List Char) (w : Int)
    (h : sp.length ≠ 1) :
    r_l_justify a b sp w = .error errSpaceChr := by
  simp only [r_l_justify]
  rw [if_pos (Or.inr h)]

/-- Witness for C9: both the empty pad string and the two-character pad
string `"ab"` are rejected. -/
theorem r_l_justify_invalid_pad_witness :
    (([] : List Char).length ≠ 1 ∧
      r_l_justify "a".data "b".data [] 10 = .error errSpaceChr) ∧
    ("ab".data.length ≠ 1 ∧
      r_l_justify "a".data "b".data "ab".data 10 = .error errSpaceChr) :=
  ⟨⟨by decide, r_l_justify_invalid_pad _ _ _ _ (by decide)⟩,
   ⟨by decide, r_l_justify_invalid_pad _ _ _ _ (by decide)⟩⟩

end GroceryListDB
